import Mathlib

/-!
Shallow embedding of `gitlab2github.py`, a one-shot GitLab-to-GitHub
migration script, together with theorems checking the repository's
natural-language specification against it.

Modelling conventions:
* Python strings are Lean `String` / `List Char`; `str.lower()` is
  `pyLower` (the script only ever handles ASCII usernames and bodies).
* `str.replace` and `re.sub(..., flags=re.IGNORECASE)` with a literal
  pattern are modelled by the fuel-indexed scanner `replaceScanAux`,
  which performs the same left-to-right, non-overlapping replacement;
  the fuel is the length of the scanned string, which always suffices
  because every step consumes at least one character (the script never
  substitutes an empty pattern).
* `re.findall("@\\w+", body)` is `findCitations` (ASCII `\w`).
* JSON dicts built by the script become structures.  In the `*Json`
  structures every key is present and an `Option` field records a
  possibly-null value (`none` = JSON `null`); in the `*Post` structures
  (the dict at POST time, after the script's `del json[k]` loop) an
  `Option` field records presence (`none` = key absent).
* Network writes are recorded as a `WriteCall` trace; the response the
  destination gives to an issue / pull-request creation POST is an
  oracle (`CreateResponse`, `Server`), since the subsequent behaviour
  of the script branches on it.
-/

/-- Model of Python `str.lower()` (ASCII, which covers every string the
script lowercases: usernames and `@`-citation keys). -/
def pyLower (s : String) : String :=
  String.mk (s.data.map Char.toLower)

/-- Identity resolution as inlined at several places of the script:
`key = username.lower(); if key in users_mapping.keys(): username = users_mapping[key]`. -/
def resolveUsername (users_mapping : List (String × String)) (username : String) : String :=
  match users_mapping.lookup (pyLower username) with
  | some mapped => mapped
  | none => username

/-- ASCII model of the regex class `\w` used in `re.findall("@\\w+", ...)`. -/
def isWordChar (c : Char) : Bool :=
  c.isAlphanum || c == '_'

/-- Model of `re.findall("@\\w+", body)`: left-to-right, non-overlapping
matches, each an `@` followed by a maximal non-empty run of word
characters.  The fuel argument makes the recursion structural; it is
instantiated with the length of the scanned list, which suffices since
every step consumes at least one character. -/
def findCitationsAux : Nat → List Char → List String
  | 0, _ => []
  | _ + 1, [] => []
  | fuel + 1, c :: rest =>
    let run := rest.takeWhile isWordChar
    if c = '@' ∧ run ≠ [] then
      String.mk ('@' :: run) :: findCitationsAux fuel (rest.drop run.length)
    else
      findCitationsAux fuel rest

/-- All `@word` citations of a character list, in order. -/
def findCitations (s : List Char) : List String :=
  findCitationsAux s.length s

/-- Fuel-indexed scanner shared by the models of `str.replace` and of
`re.sub` with a literal pattern: at each position, if `hit` accepts the
remaining input, emit `repl` and skip `klen` characters (the matched
pattern length); otherwise keep one character and move on.  Fuel is
instantiated with the input length, which suffices whenever
`1 ≤ klen`. -/
def replaceScanAux (hit : List Char → Bool) (klen : Nat) (repl : List Char) : Nat → List Char → List Char
  | 0, s => s
  | _ + 1, [] => []
  | fuel + 1, c :: rest =>
    if hit (c :: rest) then
      repl ++ replaceScanAux hit klen repl fuel (rest.drop (klen - 1))
    else
      c :: replaceScanAux hit klen repl fuel rest

/-- Model of Python `s.replace(old, new)` (for the non-empty `old` the
script uses): replace every occurrence, left to right, without overlap. -/
def pyReplaceAll (old new s : List Char) : List Char :=
  replaceScanAux (fun l => l.take old.length == old) old.length new s.length s

/-- Model of `re.sub(key, repl, s, flags=re.IGNORECASE)` for the literal,
already-lowercased patterns (`\w+` keys) the script passes: replace every
case-insensitive occurrence of `key`. -/
def reSubCI (key repl s : List Char) : List Char :=
  replaceScanAux (fun l => (l.take key.length).map Char.toLower == key) key.length repl s.length s

/-- The `@`-mention rewrite performed in `github_create_issue_comment`
immediately before the comment POST:
`citations = re.findall("@\\w+", body)`; then for each citation whose
bare username, lowercased, is a key of the user map, substitute the
mapped username for the key case-insensitively throughout the body. -/
def rewriteMentions (users_mapping : List (String × String)) (body : String) : String :=
  let citations := findCitations body.data
  citations.foldl (fun b person =>
    let key := (person.data.drop 1).map Char.toLower
    match users_mapping.lookup (String.mk key) with
    | some new_username => String.mk (reSubCI key new_username.data b.data)
    | none => b) body

/-- The separator appended after every provenance banner: `20 * "-"`. -/
def separatorLine : String :=
  String.mk (List.replicate 20 '-')

/-- Body built in `main` for a migrated issue: provenance banner,
20-dash separator, blank line, original description. -/
def issueBody (users_mapping : List (String × String)) (author_username created_at description : String) : String :=
  let username := resolveUsername users_mapping author_username
  let body := "Migrated issue created by @" ++ username ++ " at " ++ created_at ++ ".\n"
  let body := body ++ separatorLine ++ "\n\n"
  body ++ description

/-- Body built in `main` for a migrated pull request. -/
def pullRequestBody (users_mapping : List (String × String)) (author_username created_at description : String) : String :=
  let username := resolveUsername users_mapping author_username
  let body := "Migrated pull request created by @" ++ username ++ " at " ++ created_at ++ ".\n"
  let body := body ++ separatorLine ++ "\n\n"
  body ++ description

/-- Body built in `github_create_issue` / `github_create_pull_request`
for each migrated note. -/
def noteBody (users_mapping : List (String × String)) (author_username created_at body0 : String) : String :=
  let username := resolveUsername users_mapping author_username
  let body := "Migrated note created by @" ++ username ++ " at " ++ created_at ++ ".\n"
  let body := body ++ separatorLine ++ "\n\n"
  body ++ body0

/-- An assignee dict as returned by GitLab (only `username` is read). -/
structure Assignee where
  username : String
deriving DecidableEq, Repr

/-- A note dict as returned by GitLab (the three fields the script reads). -/
structure GitlabNote where
  author_username : String
  created_at : String
  body : String
deriving DecidableEq, Repr

/-- The label payload dict: built in `main`, POSTed (with `color`
rewritten) by `github_create_label`; no null-stripping is applied to it,
so a null `description` is transmitted as null. -/
structure LabelJson where
  name : String
  description : Option String
  color : String
deriving DecidableEq, Repr

/-- The milestone payload dict as built in `main`; `due_on none` is a
JSON null value (the key is still present at this point). -/
structure MilestoneJson where
  title : String
  description : Option String
  due_on : Option String
  state : String
deriving DecidableEq, Repr

/-- The milestone dict at POST time, after `github_create_milestone`
rewrote it; here `due_on none` means the key was deleted. -/
structure MilestonePost where
  title : String
  description : Option String
  due_on : Option String
  state : String
deriving DecidableEq, Repr

/-- The issue payload dict as built in `main`: all five keys present,
`Option` fields possibly null. -/
structure IssueJson where
  title : Option String
  body : String
  assignees : Option (List Assignee)
  state : Option String
  notes : Option (List GitlabNote)
deriving DecidableEq, Repr

/-- The issue dict POSTed by `github_create_issue`, after its
null-stripping loop deleted every null-valued key (`none` = key absent)
and after its assignee-mapping step replaced the assignee dicts by
mapped username strings. -/
structure IssuePost where
  title : Option String
  body : String
  assignees : Option (List String)
  state : Option String
  notes : Option (List GitlabNote)
deriving DecidableEq, Repr

/-- The pull-request payload dict as built in `main`. -/
structure PullRequestJson where
  title : Option String
  body : String
  head : String
  base : String
  notes : Option (List GitlabNote)
deriving DecidableEq, Repr

/-- The pull-request dict POSTed by `github_create_pull_request`, after
its null-stripping loop (`none` = key absent). -/
structure PullRequestPost where
  title : Option String
  body : String
  head : String
  base : String
  notes : Option (List GitlabNote)
deriving DecidableEq, Repr

/-- One POST issued against the destination API. -/
inductive WriteCall where
  | labelPost (payload : LabelJson)
  | milestonePost (payload : MilestonePost)
  | issuePost (payload : IssuePost)
  | pullRequestPost (payload : PullRequestPost)
  | commentPost (issue_number : Nat) (body : String)
  | closePost (issue_number : Nat)
deriving DecidableEq, Repr

/-- How the destination answers a creation POST: a transport/decode
exception, a decoded body containing an `errors` key (soft failure), or
a success body carrying the new entity number. -/
inductive CreateResponse where
  | exn
  | errors
  | created (number : Nat)
deriving DecidableEq, Repr

/-- Color rewrite in `github_create_label`:
`json["color"] = json["color"].replace("#", "")`. -/
def labelColor (color : String) : String :=
  String.mk (pyReplaceAll "#".data [] color.data)

/-- Modelled from the spec (section 4.3, for comparison with the code):
the color with a leading `#` stripped if present, otherwise unchanged. -/
def specLeadingHashStripped (color : String) : String :=
  match color.data with
  | '#' :: rest => String.mk rest
  | _ => color

/-- Write trace of `github_create_label`: exactly one label POST, with
the color rewritten; the response only affects logging. -/
def github_create_label (json : LabelJson) : List WriteCall :=
  [WriteCall.labelPost { json with color := labelColor json.color }]

/-- The milestone rewrite performed inside `github_create_milestone`
before its POST: `"active"` state becomes `"open"`, a null `due_on` key
is deleted, a non-null one gets `"T23:59:00Z"` appended. -/
def github_milestone_transform (json : MilestoneJson) : MilestonePost :=
  { title := json.title
    description := json.description
    due_on :=
      match json.due_on with
      | none => none
      | some d => some (d ++ "T23:59:00Z")
    state := if json.state = "active" then "open" else json.state }

/-- Write trace of `github_create_milestone`: exactly one milestone POST
of the rewritten payload; the response only affects logging. -/
def github_create_milestone (json : MilestoneJson) : List WriteCall :=
  [WriteCall.milestonePost (github_milestone_transform json)]

/-- The issue dict at POST time: the null-stripping loop deletes every
null-valued key, then (when the `assignees` key survived) the assignee
dicts are replaced by the mapped destination usernames, dropping every
assignee whose lowercased username has no mapping. -/
def stripAndMapIssue (users_mapping : List (String × String)) (json : IssueJson) : IssuePost :=
  { title := json.title
    body := json.body
    assignees := json.assignees.map (fun as =>
      as.filterMap (fun a => users_mapping.lookup (pyLower a.username)))
    state := json.state
    notes := json.notes }

/-- Write trace of `github_create_issue_comment`: the mention rewrite is
applied to the note body and one comment POST is issued; the response
only affects logging. -/
def github_create_issue_comment (users_mapping : List (String × String)) (issue_number : Nat) (note_body : String) : WriteCall :=
  WriteCall.commentPost issue_number (rewriteMentions users_mapping note_body)

/-- Write trace of `github_create_issue`: the stripped and
assignee-mapped dict is POSTed.  On a soft failure or an exception
nothing else happens.  On success the script loops over `json["notes"]`
of the stripped dict: if the `notes` key was deleted (null notes) this
raises `KeyError`, caught by the surrounding handler, so neither
comments nor the close step run.  Otherwise one comment POST per note is
issued, and then `json["state"]` is read: a deleted `state` key again
raises a caught `KeyError`, else a `"closed"` state triggers the
close POST of `github_close_issue`. -/
def github_create_issue (users_mapping : List (String × String)) (json : IssueJson) (resp : CreateResponse) : List WriteCall :=
  let payload := stripAndMapIssue users_mapping json
  WriteCall.issuePost payload ::
    match resp with
    | CreateResponse.exn => []
    | CreateResponse.errors => []
    | CreateResponse.created number =>
      match json.notes with
      | none => []
      | some notes =>
        (notes.map fun note =>
          github_create_issue_comment users_mapping number
            (noteBody users_mapping note.author_username note.created_at note.body)) ++
        match json.state with
        | none => []
        | some st => if st = "closed" then [WriteCall.closePost number] else []

/-- The pull-request dict at POST time after the null-stripping loop. -/
def stripPullRequest (json : PullRequestJson) : PullRequestPost :=
  { title := json.title
    body := json.body
    head := json.head
    base := json.base
    notes := json.notes }

/-- Write trace of `github_create_pull_request`: like
`github_create_issue` but with no assignee step and no close step. -/
def github_create_pull_request (users_mapping : List (String × String)) (json : PullRequestJson) (resp : CreateResponse) : List WriteCall :=
  let payload := stripPullRequest json
  WriteCall.pullRequestPost payload ::
    match resp with
    | CreateResponse.exn => []
    | CreateResponse.errors => []
    | CreateResponse.created number =>
      match json.notes with
      | none => []
      | some notes =>
        notes.map fun note =>
          github_create_issue_comment users_mapping number
            (noteBody users_mapping note.author_username note.created_at note.body)

/-- A GitLab label entry (the fields `main` reads). -/
structure GitlabLabelEntry where
  name : String
  description : Option String
  color : String
deriving DecidableEq, Repr

/-- A GitLab milestone entry (the fields `main` reads). -/
structure GitlabMilestoneEntry where
  title : String
  description : Option String
  due_date : Option String
  state : String
deriving DecidableEq, Repr

/-- A GitLab issue entry (the fields `main` reads); `notes` is the
result of the per-issue notes fetch, `none` when that fetch failed. -/
structure GitlabIssueEntry where
  title : Option String
  description : String
  author_username : String
  created_at : String
  assignees : Option (List Assignee)
  state : Option String
  notes : Option (List GitlabNote)
deriving DecidableEq, Repr

/-- A GitLab merge-request entry (the fields `main` reads). -/
structure GitlabMergeRequestEntry where
  title : Option String
  description : String
  author_username : String
  created_at : String
  state : String
  source_branch : String
  target_branch : String
  notes : Option (List GitlabNote)
deriving DecidableEq, Repr

/-- The four fetch results gathered at the start of `main`; `none` is
the failure sentinel a fetcher returns on a transport/decode error. -/
structure FetchResults where
  issues : Option (List GitlabIssueEntry)
  labels : Option (List GitlabLabelEntry)
  milestones : Option (List GitlabMilestoneEntry)
  merge_requests : Option (List GitlabMergeRequestEntry)

/-- Oracle for the destination's answers to issue and pull-request
creation POSTs. -/
structure Server where
  issueResp : GitlabIssueEntry → CreateResponse
  pullRequestResp : GitlabMergeRequestEntry → CreateResponse

/-- The issue payload dict as built in the issues loop of `main`. -/
def buildIssueJson (users_mapping : List (String × String)) (entry : GitlabIssueEntry) : IssueJson :=
  { title := entry.title
    body := issueBody users_mapping entry.author_username entry.created_at entry.description
    assignees := entry.assignees
    state := entry.state
    notes := entry.notes }

/-- The pull-request payload dict as built in the merge-requests loop of
`main`. -/
def buildPullRequestJson (users_mapping : List (String × String)) (entry : GitlabMergeRequestEntry) : PullRequestJson :=
  { title := entry.title
    body := pullRequestBody users_mapping entry.author_username entry.created_at entry.description
    head := entry.source_branch
    base := entry.target_branch
    notes := entry.notes }

/-- Control flow of `main` after logger setup: a failed config read
returns `-1` at once.  Otherwise the four fetches are gathered, then the
phases run in order, each phase's POSTs completing before the next
null-check: a null labels result returns `-2` before any write; a null
milestones result returns `-3` after the label writes; null issues and
null merge-requests results each return `-3` after the writes of the
preceding phases; on success `main` falls off the end (return value
`none`).  Closed merge requests are skipped before the pull-request
phase.  The second component is the ordered trace of destination
writes. -/
def mainRun (configReadOk : Bool) (users_mapping : List (String × String)) (fetch : FetchResults) (srv : Server) : Option Int × List WriteCall :=
  if !configReadOk then
    (some (-1), [])
  else
    match fetch.labels with
    | none => (some (-2), [])
    | some gitlab_labels =>
      let labelWrites := gitlab_labels.flatMap (fun entry =>
        github_create_label { name := entry.name, description := entry.description, color := entry.color })
      match fetch.milestones with
      | none => (some (-3), labelWrites)
      | some gitlab_milestones =>
        let milestoneWrites := gitlab_milestones.flatMap (fun entry =>
          github_create_milestone { title := entry.title, description := entry.description, due_on := entry.due_date, state := entry.state })
        match fetch.issues with
        | none => (some (-3), labelWrites ++ milestoneWrites)
        | some gitlab_issues =>
          let issueWrites := gitlab_issues.flatMap (fun entry =>
            github_create_issue users_mapping (buildIssueJson users_mapping entry) (srv.issueResp entry))
          match fetch.merge_requests with
          | none => (some (-3), labelWrites ++ milestoneWrites ++ issueWrites)
          | some gitlab_merge_requests =>
            let prWrites := (gitlab_merge_requests.filter (fun entry => !(entry.state == "closed"))).flatMap (fun entry =>
              github_create_pull_request users_mapping (buildPullRequestJson users_mapping entry) (srv.pullRequestResp entry))
            (none, labelWrites ++ milestoneWrites ++ issueWrites ++ prWrites)

/-- The `__main__` block: `loop.run_until_complete(main())` runs `main`
and discards its return value; no `sys.exit` is ever called, so (absent
an uncaught exception) the interpreter exits with status `0`. -/
def moduleExitStatus (configReadOk : Bool) (users_mapping : List (String × String)) (fetch : FetchResults) (srv : Server) : Nat :=
  let _ := mainRun configReadOk users_mapping fetch srv
  0

/-- A server oracle answering every creation POST with a soft failure. -/
def srvErrors : Server :=
  { issueResp := fun _ => CreateResponse.errors
    pullRequestResp := fun _ => CreateResponse.errors }

/-- Fetch results where all four fetches succeeded with empty lists. -/
def fetchAllEmpty : FetchResults :=
  { issues := some [], labels := some [], milestones := some [], merge_requests := some [] }

/-! Helper lemmas. -/

/-- The hash-removal instance of the replacement scanner is the filter
dropping every `#`, for any sufficient fuel. -/
theorem replaceScanAux_hash_eq_filter (fuel : Nat) : ∀ s : List Char, s.length ≤ fuel →
    replaceScanAux (fun l => l.take 1 == ['#']) 1 [] fuel s = s.filter (fun c => !(c == '#')) := by
  induction fuel with
  | zero =>
    intro s h
    have hs : s = [] := List.length_eq_zero.mp (Nat.le_zero.mp h)
    subst hs
    rfl
  | succ fuel ih =>
    intro s h
    match s with
    | [] => rfl
    | c :: rest =>
      have hrest : rest.length ≤ fuel := by simpa using h
      by_cases hc : c = '#'
      · subst hc
        simp [replaceScanAux, ih rest hrest]
      · have hbeq : (c == '#') = false := by simpa using hc
        simp [replaceScanAux, hbeq, ih rest hrest]

/-- The label color rewrite removes every `#` character. -/
theorem labelColor_eq_filter (color : String) :
    labelColor color = String.mk (color.data.filter (fun c => !(c == '#'))) := by
  unfold labelColor pyReplaceAll
  congr 1
  simpa using replaceScanAux_hash_eq_filter color.data.length color.data (Nat.le_refl _)

/-! Claim theorems. -/

/-- C2: identity resolution is a total pure function: when the lowercased
username is a key of the user map it returns the mapped value, otherwise
the input unchanged; with map `jdoe ↦ john-doe`, `"JDoe"` resolves to
`"john-doe"` and `"unknown"` to itself. -/
theorem resolveUsername_total_lookup :
    (∀ (users_mapping : List (String × String)) (username mapped : String),
      users_mapping.lookup (pyLower username) = some mapped →
      resolveUsername users_mapping username = mapped) ∧
    (∀ (users_mapping : List (String × String)) (username : String),
      users_mapping.lookup (pyLower username) = none →
      resolveUsername users_mapping username = username) ∧
    resolveUsername [("jdoe", "john-doe")] "JDoe" = "john-doe" ∧
    resolveUsername [("jdoe", "john-doe")] "unknown" = "unknown" := by
  refine ⟨?_, ?_, by decide, by decide⟩
  · intro users_mapping username mapped h
    simp [resolveUsername, h]
  · intro users_mapping username h
    simp [resolveUsername, h]

/-- Witness for C2 at a concrete mapped input. -/
theorem resolveUsername_total_lookup_witness :
    resolveUsername [("ann", "ann-gh")] "Ann" = "ann-gh" :=
  resolveUsername_total_lookup.1 [("ann", "ann-gh")] "Ann" "ann-gh" (by decide)

/-- C7: the milestone rewrite sends state `"active"` to `"open"` and any
other state through unchanged, drops a null due date from the payload,
appends `"T23:59:00Z"` to a non-null one, and `github_create_milestone`
transmits exactly the rewritten payload. -/
theorem github_milestone_transform_ok :
    (∀ json : MilestoneJson, json.state = "active" →
      (github_milestone_transform json).state = "open") ∧
    (∀ json : MilestoneJson, json.state ≠ "active" →
      (github_milestone_transform json).state = json.state) ∧
    (∀ json : MilestoneJson, json.due_on = none →
      (github_milestone_transform json).due_on = none) ∧
    (∀ (json : MilestoneJson) (d : String), json.due_on = some d →
      (github_milestone_transform json).due_on = some (d ++ "T23:59:00Z")) ∧
    github_milestone_transform { title := "v1", description := none, due_on := some "2024-01-15", state := "active" } =
      { title := "v1", description := none, due_on := some "2024-01-15T23:59:00Z", state := "open" } ∧
    (∀ json : MilestoneJson,
      github_create_milestone json = [WriteCall.milestonePost (github_milestone_transform json)]) := by
  refine ⟨?_, ?_, ?_, ?_, by decide, fun _ => rfl⟩
  · intro json h
    simp [github_milestone_transform, h]
  · intro json h
    simp [github_milestone_transform, h]
  · intro json h
    simp [github_milestone_transform, h]
  · intro json d h
    simp [github_milestone_transform, h]

/-- Witness for C7 at a concrete milestone. -/
theorem github_milestone_transform_ok_witness :
    (github_milestone_transform { title := "m", description := some "d", due_on := none, state := "active" }).state = "open" :=
  github_milestone_transform_ok.1 { title := "m", description := some "d", due_on := none, state := "active" } rfl

/-- C8 counterexample: the claim says only a leading `#` is stripped and
the color is otherwise unchanged, but the code removes every `#`: on
`"ff#00"` the code transmits `"ff00"` while the claimed transform leaves
`"ff#00"` unchanged. -/
theorem labelColor_leading_strip_counterexample :
    labelColor "ff#00" = "ff00" ∧
    specLeadingHashStripped "ff#00" = "ff#00" ∧
    labelColor "ff#00" ≠ specLeadingHashStripped "ff#00" := by
  refine ⟨by decide, by decide, by decide⟩

/-- C8 amended: the transmitted color is the source color with every `#`
character removed; on colors whose tail holds no `#` (in particular a
color whose only `#` is a leading one, and already-bare hex input) this
coincides with stripping a leading `#`, the transform is idempotent, and
`"#ff0000" ↦ "ff0000"`, `"00ff00" ↦ "00ff00"`. -/
theorem labelColor_replace_all_ok :
    (∀ color : String, labelColor color = String.mk (color.data.filter (fun c => !(c == '#')))) ∧
    (∀ color : String, '#' ∉ color.data.drop 1 →
      labelColor color = specLeadingHashStripped color) ∧
    (∀ color : String, labelColor (labelColor color) = labelColor color) ∧
    labelColor "#ff0000" = "ff0000" ∧
    labelColor "00ff00" = "00ff00" ∧
    (∀ json : LabelJson,
      github_create_label json = [WriteCall.labelPost { json with color := labelColor json.color }]) := by
  have hfilter := labelColor_eq_filter
  refine ⟨hfilter, ?_, ?_, by decide, by decide, fun _ => rfl⟩
  · intro color h
    cases color with
    | mk data =>
      match data with
      | [] => rfl
      | c :: rest =>
        have hrest : rest.filter (fun c => !(c == '#')) = rest := by
          refine List.filter_eq_self.mpr ?_
          intro x hx
          simp only [Bool.not_eq_true', beq_eq_false_iff_ne]
          intro hx2
          exact h (by simpa [hx2] using hx)
        by_cases hc : c = '#'
        · subst hc
          rw [hfilter]
          simp [specLeadingHashStripped, hrest]
        · have hbeq : (c == '#') = false := by simpa using hc
          rw [hfilter]
          simp [specLeadingHashStripped, List.filter, hbeq, hrest, hc]
  · intro color
    rw [hfilter, hfilter]
    congr 1
    refine List.filter_eq_self.mpr ?_
    intro x hx
    have hx2 : x ∈ List.filter (fun c => !(c == '#')) color.data := hx
    exact (List.mem_filter.mp hx2).2

/-- Witness for C8 (amended) at a concrete color with a bare-hex tail. -/
theorem labelColor_replace_all_ok_witness :
    labelColor "#00ff00" = specLeadingHashStripped "#00ff00" :=
  labelColor_replace_all_ok.2.1 "#00ff00" (by decide)

/-- C1 counterexample: with one fetched label and the milestones fetch
returning the sentinel, `main` returns `-3` only after the label POST
was issued, so the claimed "zero label-creation POSTs before the abort"
fails. -/
theorem milestone_gate_writes_counterexample :
    mainRun true []
        { issues := some [],
          labels := some [{ name := "bug", description := none, color := "#ff0000" }],
          milestones := none, merge_requests := some [] } srvErrors =
      (some (-3), [WriteCall.labelPost { name := "bug", description := none, color := "ff0000" }]) ∧
    (mainRun true []
        { issues := some [],
          labels := some [{ name := "bug", description := none, color := "#ff0000" }],
          milestones := none, merge_requests := some [] } srvErrors).2 ≠ [] := by
  refine ⟨by decide, by decide⟩

/-- C1 amended: a labels-fetch sentinel aborts the run with code `-2`
before any destination write; a milestones-fetch sentinel (with labels
fetched) aborts with the distinct code `-3`, but only after the
label-creation POST of every fetched label has been issued — so the
writes at that abort are exactly the label POSTs, and are zero only when
the label list is empty. -/
theorem fetch_gate_amended_ok :
    (∀ (users_mapping : List (String × String)) (fetch : FetchResults) (srv : Server),
      fetch.labels = none →
      mainRun true users_mapping fetch srv = (some (-2), [])) ∧
    (∀ (users_mapping : List (String × String)) (fetch : FetchResults) (srv : Server)
        (gitlab_labels : List GitlabLabelEntry),
      fetch.labels = some gitlab_labels → fetch.milestones = none →
      mainRun true users_mapping fetch srv =
        (some (-3), gitlab_labels.flatMap (fun entry =>
          github_create_label { name := entry.name, description := entry.description, color := entry.color }))) ∧
    ((-2 : Int) ≠ -3) := by
  refine ⟨?_, ?_, by decide⟩
  · intro users_mapping fetch srv h
    simp [mainRun, h]
  · intro users_mapping fetch srv gitlab_labels h1 h2
    simp [mainRun, h1, h2]

/-- Witness for C1 (amended) at a concrete failed labels fetch. -/
theorem fetch_gate_amended_ok_witness :
    mainRun true [] { issues := some [], labels := none, milestones := some [], merge_requests := some [] } srvErrors = (some (-2), []) :=
  fetch_gate_amended_ok.1 [] _ srvErrors rfl

/-- C5 counterexample: an issues-fetch failure, a milestones-fetch
failure and a merge-requests-fetch failure all make `main` return the
same code `-3`, so the issues and merge-requests codes are not distinct
from the milestones code. -/
theorem issue_mr_failure_code_counterexample :
    (mainRun true [] { issues := none, labels := some [], milestones := some [], merge_requests := some [] } srvErrors).1 = some (-3) ∧
    (mainRun true [] { issues := some [], labels := some [], milestones := none, merge_requests := some [] } srvErrors).1 = some (-3) ∧
    (mainRun true [] { issues := some [], labels := some [], milestones := some [], merge_requests := none } srvErrors).1 = some (-3) ∧
    (mainRun true [] { issues := none, labels := some [], milestones := some [], merge_requests := some [] } srvErrors).1 =
      (mainRun true [] { issues := some [], labels := some [], milestones := none, merge_requests := some [] } srvErrors).1 := by
  refine ⟨by decide, by decide, by decide, by decide⟩

/-- C5 amended: an issues-fetch sentinel and a merge-requests-fetch
sentinel each terminate the run with code `-3` — distinct from the
labels-fetch code `-2` but equal to the milestones-fetch code `-3`, not
distinct from it. -/
theorem issue_mr_failure_code_amended_ok :
    (∀ (users_mapping : List (String × String)) (fetch : FetchResults) (srv : Server)
        (gitlab_labels : List GitlabLabelEntry) (gitlab_milestones : List GitlabMilestoneEntry),
      fetch.labels = some gitlab_labels → fetch.milestones = some gitlab_milestones →
      fetch.issues = none →
      (mainRun true users_mapping fetch srv).1 = some (-3)) ∧
    (∀ (users_mapping : List (String × String)) (fetch : FetchResults) (srv : Server)
        (gitlab_labels : List GitlabLabelEntry) (gitlab_milestones : List GitlabMilestoneEntry)
        (gitlab_issues : List GitlabIssueEntry),
      fetch.labels = some gitlab_labels → fetch.milestones = some gitlab_milestones →
      fetch.issues = some gitlab_issues → fetch.merge_requests = none →
      (mainRun true users_mapping fetch srv).1 = some (-3)) ∧
    ((-3 : Int) ≠ -2) := by
  refine ⟨?_, ?_, by decide⟩
  · intro users_mapping fetch srv ls ms h1 h2 h3
    simp [mainRun, h1, h2, h3]
  · intro users_mapping fetch srv ls ms is0 h1 h2 h3 h4
    simp [mainRun, h1, h2, h3, h4]

/-- Witness for C5 (amended) at a concrete failed issues fetch. -/
theorem issue_mr_failure_code_amended_ok_witness :
    (mainRun true [] { issues := none, labels := some [], milestones := some [], merge_requests := some [] } srvErrors).1 = some (-3) :=
  issue_mr_failure_code_amended_ok.1 [] _ srvErrors [] [] rfl rfl rfl

/-- C9: the `__main__` block discards the value `main` returns, so the
process exit status is `0` for every run outcome; in particular runs in
which `main` returns `-1`, `-2` or `-3` still exit with status `0`. -/
theorem moduleExitStatus_always_zero :
    (∀ (configReadOk : Bool) (users_mapping : List (String × String)) (fetch : FetchResults) (srv : Server),
      moduleExitStatus configReadOk users_mapping fetch srv = 0) ∧
    (mainRun false [] fetchAllEmpty srvErrors).1 = some (-1) ∧
    moduleExitStatus false [] fetchAllEmpty srvErrors = 0 ∧
    (mainRun true [] { fetchAllEmpty with labels := none } srvErrors).1 = some (-2) ∧
    moduleExitStatus true [] { fetchAllEmpty with labels := none } srvErrors = 0 ∧
    (mainRun true [] { fetchAllEmpty with milestones := none } srvErrors).1 = some (-3) ∧
    moduleExitStatus true [] { fetchAllEmpty with milestones := none } srvErrors = 0 := by
  exact ⟨fun _ _ _ _ => rfl, by decide, rfl, by decide, rfl, by decide, rfl⟩

/-- C3 counterexample: an issue with a non-null attached notes list is
POSTed with the `notes` key still in the payload, so the transmitted
payload does not contain only title, body, assignees and state, and the
notes list is transmitted. -/
theorem issuePayload_notes_transmitted_counterexample :
    github_create_issue []
        { title := some "t", body := "b", assignees := some [], state := some "opened",
          notes := some [{ author_username := "u", created_at := "T", body := "hi" }] }
        CreateResponse.errors =
      [WriteCall.issuePost
        { title := some "t", body := "b", assignees := some [], state := some "opened",
          notes := some [{ author_username := "u", created_at := "T", body := "hi" }] }] ∧
    (stripAndMapIssue []
        { title := some "t", body := "b", assignees := some [], state := some "opened",
          notes := some [{ author_username := "u", created_at := "T", body := "hi" }] }).notes ≠ none := by
  refine ⟨by decide, by decide⟩

/-- C3 amended: the POSTed issue payload is the built dict with every
null-valued key deleted and the assignees re-resolved through the user
map (unmapped assignees dropped); it carries the keys title, body,
assignees, state AND notes — the attached notes list, when non-null, is
transmitted in the creation payload as well as being used for the
follow-up comment step. -/
theorem github_create_issue_payload_ok :
    (∀ (users_mapping : List (String × String)) (json : IssueJson) (resp : CreateResponse),
      (github_create_issue users_mapping json resp).head? =
        some (WriteCall.issuePost (stripAndMapIssue users_mapping json))) ∧
    (∀ (users_mapping : List (String × String)) (json : IssueJson),
      (stripAndMapIssue users_mapping json).title = json.title ∧
      (stripAndMapIssue users_mapping json).body = json.body ∧
      (stripAndMapIssue users_mapping json).state = json.state ∧
      (stripAndMapIssue users_mapping json).notes = json.notes) ∧
    (∀ (users_mapping : List (String × String)) (json : IssueJson),
      json.assignees = none → (stripAndMapIssue users_mapping json).assignees = none) ∧
    (∀ (users_mapping : List (String × String)) (json : IssueJson) (assignees : List Assignee),
      json.assignees = some assignees →
      (stripAndMapIssue users_mapping json).assignees =
        some (assignees.filterMap (fun a => users_mapping.lookup (pyLower a.username)))) := by
  refine ⟨fun _ _ _ => rfl, fun _ _ => ⟨rfl, rfl, rfl, rfl⟩, ?_, ?_⟩
  · intro users_mapping json h
    simp [stripAndMapIssue, h]
  · intro users_mapping json assignees h
    simp [stripAndMapIssue, h]

/-- Witness for C3 (amended): a mapped assignee is kept under its
destination name and an unmapped one is dropped. -/
theorem github_create_issue_payload_ok_witness :
    (stripAndMapIssue [("jdoe", "john-doe")]
        { title := some "t", body := "b", assignees := some [{ username := "JDoe" }, { username := "zed" }],
          state := some "opened", notes := some [] }).assignees = some ["john-doe"] :=
  (github_create_issue_payload_ok.2.2.2 [("jdoe", "john-doe")]
    { title := some "t", body := "b", assignees := some [{ username := "JDoe" }, { username := "zed" }],
      state := some "opened", notes := some [] }
    [{ username := "JDoe" }, { username := "zed" }] rfl).trans (by decide)

/-- C10: when the per-issue notes fetch failed (`notes` null) the
null-stripping deletes the `notes` key, so after a successful creation
POST the iteration over `json["notes"]` raises a `KeyError` caught by
the operation's handler: the issue POST is still issued (with no `notes`
key in the payload), but no comment POST and — even for a source state
`"closed"` — no close POST ever happens. -/
theorem github_create_issue_null_notes_ok :
    ∀ (users_mapping : List (String × String)) (json : IssueJson) (resp : CreateResponse) (number : Nat),
      json.notes = none → json.state = some "closed" → resp = CreateResponse.created number →
      github_create_issue users_mapping json resp = [WriteCall.issuePost (stripAndMapIssue users_mapping json)] ∧
      (stripAndMapIssue users_mapping json).notes = none ∧
      WriteCall.closePost number ∉ github_create_issue users_mapping json resp ∧
      (∀ (n : Nat) (body : String), WriteCall.commentPost n body ∉ github_create_issue users_mapping json resp) := by
  intro users_mapping json resp number h1 h2 h3
  subst h3
  have hev : github_create_issue users_mapping json (CreateResponse.created number) =
      [WriteCall.issuePost (stripAndMapIssue users_mapping json)] := by
    simp [github_create_issue, h1]
  refine ⟨hev, by simp [stripAndMapIssue, h1], ?_, ?_⟩
  · rw [hev]
    simp
  · intro n body
    rw [hev]
    simp

/-- Witness for C10 at a concrete closed issue whose notes fetch failed. -/
theorem github_create_issue_null_notes_ok_witness :
    github_create_issue []
        { title := some "t", body := "b", assignees := some [], state := some "closed", notes := none }
        (CreateResponse.created 7) =
      [WriteCall.issuePost
        { title := some "t", body := "b", assignees := some [], state := some "closed", notes := none }] :=
  (github_create_issue_null_notes_ok []
    { title := some "t", body := "b", assignees := some [], state := some "closed", notes := none }
    (CreateResponse.created 7) 7 rfl rfl rfl).1.trans (by decide)

/-- When no citation of the body has a mapped user, the mention rewrite
leaves the body unchanged. -/
theorem rewriteMentions_noop (users_mapping : List (String × String)) (body : String)
    (h : ∀ person ∈ findCitations body.data,
      users_mapping.lookup (String.mk ((person.data.drop 1).map Char.toLower)) = none) :
    rewriteMentions users_mapping body = body := by
  have key : ∀ cits : List String,
      (∀ person ∈ cits, users_mapping.lookup (String.mk ((person.data.drop 1).map Char.toLower)) = none) →
      ∀ b : String,
      cits.foldl (fun b person =>
        let key := (person.data.drop 1).map Char.toLower
        match users_mapping.lookup (String.mk key) with
        | some new_username => String.mk (reSubCI key new_username.data b.data)
        | none => b) b = b := by
    intro cits
    induction cits with
    | nil => intro _ b; rfl
    | cons p ps ih =>
      intro hall b
      rw [List.foldl_cons]
      have hp : users_mapping.lookup (String.mk ((p.data.drop 1).map Char.toLower)) = none :=
        hall p (List.mem_cons_self p ps)
      simp only [hp]
      exact ih (fun q hq => hall q (List.mem_cons_of_mem p hq)) b
  simpa [rewriteMentions] using key (findCitations body.data) h body

/-- C4 counterexample: with map `bo ↦ robert`, the body `"@bo is bored"`
is rewritten to `"@robert is robertred"` — the non-token occurrence of
`bo` inside `bored` is rewritten too — not to the `"@robert is bored"`
that a whole-word substitution would give. -/
theorem rewriteMentions_substring_counterexample :
    rewriteMentions [("bo", "robert")] "@bo is bored" = "@robert is robertred" ∧
    rewriteMentions [("bo", "robert")] "@bo is bored" ≠ "@robert is bored" :=
  ⟨by decide, by decide⟩

/-- C4 amended: immediately before the comment POST, for every `@username`
citation of the body whose referenced username (case-insensitively) has a
destination mapping, every case-insensitive substring occurrence of the
bare username in the body is replaced by the mapped username — not only
whole-word token occurrences, so text inside other words changes too;
bodies all of whose citations are unmapped are left unchanged. -/
theorem rewriteMentions_amended_ok :
    (∀ (users_mapping : List (String × String)) (body : String),
      (∀ person ∈ findCitations body.data,
        users_mapping.lookup (String.mk ((person.data.drop 1).map Char.toLower)) = none) →
      rewriteMentions users_mapping body = body) ∧
    rewriteMentions [("jdoe", "john-doe")] "ping @JDoe" = "ping @john-doe" ∧
    rewriteMentions [("bo", "robert")] "see @bo; bored" = "see @robert; robertred" ∧
    (∀ (users_mapping : List (String × String)) (issue_number : Nat) (note_body : String),
      github_create_issue_comment users_mapping issue_number note_body =
        WriteCall.commentPost issue_number (rewriteMentions users_mapping note_body)) :=
  ⟨rewriteMentions_noop, by decide, by decide, fun _ _ _ => rfl⟩

/-- Witness for C4 (amended) at a body with no citations. -/
theorem rewriteMentions_amended_ok_witness :
    rewriteMentions [("jdoe", "john-doe")] "no mentions here" = "no mentions here" :=
  rewriteMentions_amended_ok.1 [("jdoe", "john-doe")] "no mentions here" (by decide)

/-- C6 counterexample: the comment body actually transmitted for a note
is not always exactly banner + original text: a note body `"ping @jdoe"`
with map `jdoe ↦ john-doe` is transmitted with the mention rewritten,
differing from the synthesized banner + original body. -/
theorem noteBody_transmission_counterexample :
    github_create_issue_comment [("jdoe", "john-doe")] 5
        (noteBody [("jdoe", "john-doe")] "bob" "2024-03-01T10:00:00Z" "ping @jdoe") =
      WriteCall.commentPost 5
        "Migrated note created by @bob at 2024-03-01T10:00:00Z.\n--------------------\n\nping @john-doe" ∧
    rewriteMentions [("jdoe", "john-doe")]
        (noteBody [("jdoe", "john-doe")] "bob" "2024-03-01T10:00:00Z" "ping @jdoe") ≠
      noteBody [("jdoe", "john-doe")] "bob" "2024-03-01T10:00:00Z" "ping @jdoe" :=
  ⟨by decide, by decide⟩

/-- C6 amended: every synthesized issue, pull-request and note body is
exactly the banner `"Migrated <kind> created by @<mapped-username> at
<timestamp>."`, a newline, the 20-dash separator line, a blank line, and
the original source body; issue and pull-request bodies are transmitted
in that exact form, while the body transmitted for a note is that text
with the @mention rewrite applied immediately before the comment POST
(identical to it whenever the note cites no mapped username). -/
theorem provenance_banner_amended_ok :
    (∀ (users_mapping : List (String × String)) (author created_at description : String),
      issueBody users_mapping author created_at description =
        ("Migrated issue created by @" ++ resolveUsername users_mapping author ++ " at " ++ created_at ++ ".\n") ++
          ("--------------------" ++ "\n\n") ++ description) ∧
    (∀ (users_mapping : List (String × String)) (author created_at description : String),
      pullRequestBody users_mapping author created_at description =
        ("Migrated pull request created by @" ++ resolveUsername users_mapping author ++ " at " ++ created_at ++ ".\n") ++
          ("--------------------" ++ "\n\n") ++ description) ∧
    (∀ (users_mapping : List (String × String)) (author created_at text : String),
      noteBody users_mapping author created_at text =
        ("Migrated note created by @" ++ resolveUsername users_mapping author ++ " at " ++ created_at ++ ".\n") ++
          ("--------------------" ++ "\n\n") ++ text) ∧
    issueBody [("alice", "alice-gh")] "alice" "2024-03-01T10:00:00Z" "the original description" =
      "Migrated issue created by @alice-gh at 2024-03-01T10:00:00Z.\n--------------------\n\n" ++ "the original description" ∧
    (∀ (users_mapping : List (String × String)) (issue_number : Nat) (author created_at text : String),
      github_create_issue_comment users_mapping issue_number (noteBody users_mapping author created_at text) =
        WriteCall.commentPost issue_number (rewriteMentions users_mapping (noteBody users_mapping author created_at text))) := by
  have hsep : separatorLine = "--------------------" := by decide
  refine ⟨?_, ?_, ?_, by decide, fun _ _ _ _ _ => rfl⟩
  · intro users_mapping author created_at description
    simp [issueBody, hsep, String.append_assoc]
  · intro users_mapping author created_at description
    simp [pullRequestBody, hsep, String.append_assoc]
  · intro users_mapping author created_at text
    simp [noteBody, hsep, String.append_assoc]
